import Mathlib

/-!
Verification development for the cars.co.za scraper (src/scraper.py and
src/parser.py), as a shallow embedding in Lean 4.

Python dictionaries are modelled as insertion-ordered association lists over a
JSON-like value type `JVal` (keys assumed distinct, as for a Python dict);
`dictSet` replaces in place when the key exists and appends otherwise, exactly
like `d[k] = v`.  Fallible Python code (KeyError, IndexError, JSONDecodeError,
network errors) is modelled with `Option`.  The on-disk state seen by
`save_batch_to_file` is a pair of paths (the temporary file `_<name>` and the
final file `<name>`), each holding either nothing, a parseable JSON document,
or unparseable bytes.  Failure injection during a flush is modelled by the
number of completed steps of the write/remove/rename sequence.
-/

/-- A JSON-like value, standing for the Python values the scraper moves
around (dicts from `json` decoding, strings, ints, lists). -/
inductive JVal where
  | null : JVal
  | bool : Bool → JVal
  | num : Int → JVal
  | str : String → JVal
  | arr : List JVal → JVal
  | obj : List (String × JVal) → JVal
deriving Repr

/-- Lookup `d[k]` on a Python dict (first match; keys are assumed distinct). -/
def dictGet : List (String × JVal) → String → Option JVal
  | [], _ => none
  | p :: ps, k => if p.1 == k then some p.2 else dictGet ps k

/-- Assignment `d[k] = v` on a Python dict: replace in place if the key
exists, else append, preserving insertion order. -/
def dictSet : List (String × JVal) → String → JVal → List (String × JVal)
  | [], k, v => [(k, v)]
  | p :: ps, k, v => if p.1 == k then (k, v) :: ps else p :: dictSet ps k v

/-- Removal `d.pop(k)`'s effect on the dict (the popped value is read
separately with `dictGet`). -/
def dictRemove (d : List (String × JVal)) (k : String) :
    List (String × JVal) :=
  d.filter (fun p => p.1 != k)

/-- The effect of `d.update(e)` (or of `{**d, **e}`): each entry of `e` is
assigned into `d` in order. -/
def dictUpdate (d e : List (String × JVal)) : List (String × JVal) :=
  e.foldl (fun acc p => dictSet acc p.1 p.2) d

/-- View a value as a Python dict; anything else raises when subscripted
with a string key or iterated as a mapping. -/
def asObj : JVal → Option (List (String × JVal))
  | .obj d => some d
  | _ => none

/-- View a value as a Python list. -/
def asArr : JVal → Option (List JVal)
  | .arr l => some l
  | _ => none

/-- View a value as a Python string. -/
def asStr : JVal → Option String
  | .str s => some s
  | _ => none

/-- Rendering of a value inside an f-string (`str(v)` for the shapes the
scraper actually formats: strings and numbers). -/
def jFormat : JVal → String
  | .null => "None"
  | .bool b => if b then "True" else "False"
  | .num n => toString n
  | .str s => s
  | .arr _ => "[...]"
  | .obj _ => "{...}"

/-- Contents of one on-disk file: either a parseable JSON document (here,
the list of records `json.dump` writes) or unparseable bytes (what
`json.load` rejects with `JSONDecodeError`). -/
inductive FileContent where
  | valid : List JVal → FileContent
  | corrupt : String → FileContent
deriving Repr

/-- The slice of the filesystem that `save_batch_to_file` touches for one
run: the temporary path `_<filename>` and the final path `<filename>`;
`none` means the path does not exist. -/
structure FS where
  temp : Option FileContent
  final : Option FileContent
deriving Repr

/-- Model of `load_existing_data`: a missing final file yields an empty
store; a final file whose JSON fails to decode is logged and also yields an
empty store. -/
def load_existing_data (fs : FS) : List JVal :=
  match fs.final with
  | none => []
  | some (.valid l) => l
  | some (.corrupt _) => []

/-- The filesystem after each externally visible step of the try block of
`save_batch_to_file`: index 0 before any write (the read and the in-memory
`extend` change no file), index 1 after the temporary file is written,
index 2 after the conditional `os.remove(final_filename)` (the remove only
runs when the final file exists, and in both branches the final path does
not exist afterwards, so no `if` is needed here; the one-second
`time.sleep` changes no file), index 3 after
`os.rename(temp_filename, final_filename)`. -/
def saveBatchTrace (fs : FS) (batch : List JVal) : List FS :=
  let merged := load_existing_data fs ++ batch
  let fs1 : FS := { fs with temp := some (.valid merged) }
  let fs2 : FS := { fs1 with final := none }
  let fs3 : FS := { temp := none, final := some (.valid merged) }
  [fs, fs1, fs2, fs3]

/-- The filesystem after the first `k` steps of a flush attempt have
completed (`k ≥ 3` means the whole try block ran). -/
def flushStateAt (fs : FS) (batch : List JVal) (k : Nat) : FS :=
  (saveBatchTrace fs batch).getD (min k 3) fs

/-- The interim filesystems a failure can leave behind between the
temporary-file write and the rename: after the write itself, and after the
remove of the final file. -/
def midFlushStates (fs : FS) (batch : List JVal) : List FS :=
  [flushStateAt fs batch 1, flushStateAt fs batch 2]

/-- Model of `save_batch_to_file` with failure injection: `k` is how many
steps of the write/remove/rename sequence complete before an exception (if
any) is raised; returns the resulting filesystem and the Boolean the Python
function returns (`True` only when everything ran, since any exception is
caught and turned into `False`). -/
def save_batch_to_file (fs : FS) (batch : List JVal) (k : Nat) : FS × Bool :=
  (flushStateAt fs batch k, decide (3 ≤ k))

/-- Model of `process_batch`: only a non-empty batch is flushed, and the
batch is cleared exactly when `save_batch_to_file` returned `True`.
Returns the filesystem, the contents of the `batch` list after the call
(`batch.clear()` mutates it in place), and whether `save_batch_to_file`
was invoked at all. -/
def process_batch (fs : FS) (batch : List JVal) (k : Nat) :
    FS × List JVal × Bool :=
  if batch.isEmpty then (fs, batch, false)
  else
    let r := save_batch_to_file fs batch k
    (r.1, if r.2 then [] else batch, true)

/-- Module constant `BATCH_SIZE`. -/
def BATCH_SIZE : Nat := 10000

/-- Module constant `TIMEOUT_SECONDS` (30.0 seconds, modelled in whole
seconds). -/
def TIMEOUT_SECONDS : Nat := 30

/-- The persister thresholds (`BATCH_SIZE` and `TIMEOUT_SECONDS` in the
source; parameters here so the theorems cover any configured values, as in
the spec's test harness with threshold 3). -/
structure PersisterConfig where
  batchSize : Nat
  timeoutSeconds : Nat

/-- Loop state of `save_car_data_worker`: the in-memory `batch` and
`last_save_time` (time modelled in whole seconds). -/
structure PersisterState where
  batch : List JVal
  lastSave : Nat

/-- One iteration of `save_car_data_worker` in which the `get` returned a
record `rec` at time `now`: append it to the batch; if the batch has
reached `batchSize` or `timeoutSeconds` have elapsed since the last save,
call `process_batch` and reset `last_save_time`; then `task_done`.  Returns
the filesystem, the new loop state, and whether `save_batch_to_file` was
invoked before the next `get`. -/
def save_car_data_worker_arrival (cfg : PersisterConfig) (fs : FS)
    (st : PersisterState) (rec : JVal) (now : Nat) (k : Nat) :
    FS × PersisterState × Bool :=
  let batch1 := st.batch ++ [rec]
  if cfg.batchSize ≤ batch1.length ∨ cfg.timeoutSeconds ≤ now - st.lastSave then
    let r := process_batch fs batch1 k
    (r.1, ⟨r.2.1, now⟩, r.2.2)
  else
    (fs, ⟨batch1, st.lastSave⟩, false)

/-- One iteration of `save_car_data_worker` in which the `get` timed out
(`queue.Empty`): `process_batch` runs unconditionally and `last_save_time`
is reset. -/
def save_car_data_worker_timeout (fs : FS) (st : PersisterState)
    (now : Nat) (k : Nat) : FS × PersisterState × Bool :=
  let r := process_batch fs st.batch k
  (r.1, ⟨r.2.1, now⟩, r.2.2)

/-- Module constant `CAR_DATA_LINK`. -/
def CAR_DATA_LINK : String := "https://api.cars.co.za/fw/public/v2/specs"

/-- Dataclass `SearchPageLinks`; every field defaults to the empty string.
Field values come straight from the decoded JSON, so they are kept as
`JVal`s (the dataclass does not coerce them). -/
structure SearchPageLinks where
  self : JVal := .str ""
  first : JVal := .str ""
  next : JVal := .str ""
  prev : JVal := .str ""
  last : JVal := .str ""
deriving Repr

/-- Dataclass `SearchPageResponse` (the `meta` counters are kept as the raw
decoded values; they are only interpolated into a log line). -/
structure SearchPageResponse where
  links : SearchPageLinks
  data : List JVal
  current_page : JVal
  total_pages : JVal
deriving Repr

/-- Model of `new_search_page_response`. `None` models the exceptions the
construction can raise: a missing `links`, `data` or `meta` key, a `links`
value that is not a mapping, a keyword unknown to `SearchPageLinks`
(`TypeError` from `SearchPageLinks(**links)`), or missing `meta` counters.
A `data` value that is not a JSON array is also folded into the failure
case, since no claim concerns a non-array `data`. -/
def new_search_page_response (j : JVal) : Option SearchPageResponse := do
  let d ← asObj j
  let linksJ ← dictGet d "links"
  let ld ← asObj linksJ
  if ld.all (fun p =>
      p.1 == "self" || p.1 == "first" || p.1 == "next" ||
      p.1 == "prev" || p.1 == "last") then
    let dataJ ← dictGet d "data"
    let dataL ← asArr dataJ
    let metaJ ← dictGet d "meta"
    let md ← asObj metaJ
    let cp ← dictGet md "currentPage"
    let tp ← dictGet md "totalPages"
    pure
      { links :=
          { self := (dictGet ld "self").getD (.str "")
            first := (dictGet ld "first").getD (.str "")
            next := (dictGet ld "next").getD (.str "")
            prev := (dictGet ld "prev").getD (.str "")
            last := (dictGet ld "last").getD (.str "") }
        data := dataL
        current_page := cp
        total_pages := tp }
  else none

/-- One yield of the generator `SearchPageResponse.get_car_data`: read
`listing['attributes']`, then build the detail URL from its `code` and
`year`; `None` models a raised `KeyError`/`TypeError`. -/
def get_car_data_item (listing : JVal) : Option (String × JVal) := do
  let ld ← asObj listing
  let attrsJ ← dictGet ld "attributes"
  let ad ← asObj attrsJ
  let code ← dictGet ad "code"
  let year ← dictGet ad "year"
  pure (CAR_DATA_LINK ++ "/" ++ jFormat code ++ "/" ++ jFormat year, attrsJ)

/-- Driving the `get_car_data` generator from inside the worker's `for`
loop: each successful yield has already been `put` on the detail queue when
a later yield raises, so the result is the list of requests actually
emitted plus a flag saying whether the loop finished without raising. -/
def get_car_data_emits : List JVal → List (String × JVal) × Bool
  | [] => ([], true)
  | l :: ls =>
    match get_car_data_item l with
    | none => ([], false)
    | some e =>
      let r := get_car_data_emits ls
      (e :: r.1, r.2)

/-- Effects of one iteration of `search_page_worker`: the `(link, attrs)`
pairs put on `car_data_request_queue`, the links put back on
`search_page_request_queue`, and how many times
`search_page_request_queue.task_done()` ran. -/
structure PageWorkerOutput where
  detailPuts : List (String × JVal)
  pagePuts : List JVal
  taskDone : Nat
deriving Repr

/-- One iteration of `search_page_worker` after `get` returned a link.
`fetch` is `none` when the HTTP request raises or `raise_for_status` fires
(or `.json()` fails), and `some body` on a decoded response body.  Every
exception lands in the `except` clause, which only logs; `task_done` runs
after the try/except either way. -/
def search_page_worker_step (fetch : Option JVal) : PageWorkerOutput :=
  match fetch with
  | none => ⟨[], [], 1⟩
  | some body =>
    match new_search_page_response body with
    | none => ⟨[], [], 1⟩
    | some resp =>
      let r := get_car_data_emits resp.data
      if r.2 then ⟨r.1, [resp.links.next], 1⟩ else ⟨r.1, [], 1⟩

/-- Effects of one iteration of `car_data_worker`: the records put on
`car_data_result_queue` and how many times
`car_data_request_queue.task_done()` ran. -/
structure CarWorkerOutput where
  emits : List JVal
  taskDone : Nat
deriving Repr

/-- One iteration of `car_data_worker` after `get` returned
`(link, car_attrs)`.  `fetch` is `none` when the HTTP request or
`raise_for_status` or `.json()` raises.  On a decoded body,
`result.json()['data'][0]` needs a `data` key holding a non-empty array
(a missing key raises `KeyError`, an empty array raises `IndexError`; a
non-array `data` is folded into the same caught-exception case); the
emitted record nests the seed attributes under `car_attrs` and the first
`data` element under `car_specs`.  `task_done` runs after the try/except
in every case. -/
def car_data_worker_step (car_attrs : JVal) (fetch : Option JVal) :
    CarWorkerOutput :=
  match fetch with
  | none => ⟨[], 1⟩
  | some body =>
    match (asObj body).bind (fun d => dictGet d "data") with
    | none => ⟨[], 1⟩
    | some dataJ =>
      match asArr dataJ with
      | none => ⟨[], 1⟩
      | some [] => ⟨[], 1⟩
      | some (x :: _) =>
        ⟨[JVal.obj [("car_attrs", car_attrs), ("car_specs", x)]], 1⟩

/-- Python `s.replace(" ", "_").lower()` as used on the title and label
strings of `flatten_car_data` (both operations are characterwise here,
since the pattern is the single character `" "`). -/
def underscoreLower (s : String) : String :=
  String.mk (s.data.map (fun c => (if c = ' ' then '_' else c).toLower))

/-- The `new_car_spec` accumulation of `flatten_car_data` for one spec
group: every item's `value` is assigned under `<title>_<label>`
(lowercased, spaces to underscores); `none` models the uncaught exception
a malformed group raises. -/
def flatten_specs_step (acc : List (String × JVal)) (specDict : JVal) :
    Option (List (String × JVal)) := do
  let sd ← asObj specDict
  let titleJ ← dictGet sd "title"
  let title ← asStr titleJ
  let specName := underscoreLower title
  let attrsJ ← dictGet sd "attrs"
  let items ← asArr attrsJ
  items.foldlM
    (fun acc2 item => do
      let it ← asObj item
      let labelJ ← dictGet it "label"
      let label ← asStr labelJ
      let value ← dictGet it "value"
      pure (dictSet acc2 (specName ++ "_" ++ underscoreLower label) value))
    acc

/-- The whole `new_car_spec` loop of `flatten_car_data` over the list bound
to `car_specs`. -/
def flatten_specs (specs : List JVal) : Option (List (String × JVal)) :=
  specs.foldlM flatten_specs_step []

/-- Model of `flatten_car_data`.  The Python function receives one record
`car_data` and returns the flattened dict, but `car_attrs` is an alias of
`car_data['car_attrs']`, and the function reassigns that dict's
`seller_types` entry to the comma-joined string and replaces its `image`
entry by `image_*` keys, mutating the record in place.  The model
therefore returns the pair (returned dict, state of the input record after
the call); `none` models an uncaught exception on a malformed record. -/
def flatten_car_data (car_data : JVal) : Option (JVal × JVal) := do
  let cd ← asObj car_data
  let attrsJ ← dictGet cd "car_attrs"
  let attrs ← asObj attrsJ
  let specsJ ← dictGet cd "car_specs"
  let specs ← asArr specsJ
  let stJ ← dictGet attrs "seller_types"
  let stL ← asArr stJ
  let stStrs ← stL.mapM asStr
  let attrs1 := dictSet attrs "seller_types"
    (.str (String.intercalate "," stStrs))
  let imgJ ← dictGet attrs1 "image"
  let img ← asObj imgJ
  let attrs2 := dictRemove attrs1 "image"
  let attrs3 := dictUpdate attrs2 (img.map (fun p => ("image_" ++ p.1, p.2)))
  let newSpec ← flatten_specs specs
  pure (JVal.obj (dictUpdate attrs3 newSpec),
        JVal.obj (dictSet cd "car_attrs" (JVal.obj attrs3)))

/-- Example store: a final file holding one previously persisted record. -/
def fsC1 : FS := ⟨none, some (.valid [.str "old"])⟩

/-- Example one-record batch. -/
def batchC1 : List JVal := [.str "new"]

/-- Example page body whose `links.next` is the empty terminal sentinel. -/
def bodyC2 : JVal :=
  .obj [("links", .obj [("next", .str "")]),
        ("data", .arr []),
        ("meta", .obj [("currentPage", .num 1), ("totalPages", .num 1)])]

/-- Example discovered listing. -/
def listingC2 : JVal :=
  .obj [("attributes", .obj [("code", .str "ABC"), ("year", .num 2020)])]

/-- Example page body with one listing and a non-empty next link. -/
def bodyC2w : JVal :=
  .obj [("links", .obj [("next", .str "page2")]),
        ("data", .arr [listingC2]),
        ("meta", .obj [("currentPage", .num 1), ("totalPages", .num 2)])]

/-- The parse of `bodyC2w`. -/
def respC2w : SearchPageResponse :=
  { links := { next := .str "page2" }
    data := [listingC2]
    current_page := .num 1
    total_pages := .num 2 }

/-- Example seed attributes carried from discovery. -/
def attrsC8 : JVal := .obj [("code", .str "ABC"), ("year", .num 2020)]

/-- Example spec group of a detail payload. -/
def specGroupC8 : JVal :=
  .obj [("title", .str "Engine"),
        ("attrs", .arr [.obj [("label", .str "Power"),
                              ("value", .str "100kW")]])]

/-- Example detail payload (`data[0]` of a detail response). -/
def xC8 : JVal := .arr [specGroupC8]

/-- Example detail response body, as a dict. -/
def dC8 : List (String × JVal) := [("data", .arr [xC8])]

/-- Example detail response body. -/
def bodyC8 : JVal := .obj dC8

/-- Example detail response body with an empty `data` array. -/
def bodyC10 : JVal := .obj [("data", .arr [])]

/-- Example record as stored in the result queue, as a dict. -/
def cdC9l : List (String × JVal) :=
  [("car_attrs", .obj [("seller_types", .arr [.str "dealer"]),
                       ("image", .obj [("name", .str "n")])]),
   ("car_specs", .arr [])]

/-- Example record as stored in the result queue. -/
def cdC9 : JVal := .obj cdC9l

/-- The `car_attrs` mapping of `cdC9` after `flatten_car_data` ran on it. -/
def attrsC9post : List (String × JVal) :=
  [("seller_types", .str "dealer"), ("image_name", .str "n")]

/-- The value `flatten_car_data` returns on `cdC9`. -/
def outC9 : JVal := .obj attrsC9post

/-- The state of the record `cdC9` after `flatten_car_data` ran on it. -/
def postC9 : JVal :=
  .obj [("car_attrs", .obj attrsC9post), ("car_specs", .arr [])]


/-- Auxiliary: when the item loop of `get_car_data` completes without
raising, exactly one detail request was emitted per listing. -/
theorem get_car_data_emits_length (l : List JVal)
    (h : (get_car_data_emits l).2 = true) :
    (get_car_data_emits l).1.length = l.length := by
  induction l with
  | nil => rfl
  | cons x xs ih =>
    unfold get_car_data_emits at h ⊢
    cases hx : get_car_data_item x with
    | none => rw [hx] at h; simp at h
    | some e =>
      rw [hx] at h
      simpa using ih (by simpa using h)

/-- Auxiliary: assigning one key of a Python dict leaves every other key's
lookup unchanged. -/
theorem dictGet_dictSet_ne (d : List (String × JVal)) (key k : String)
    (v : JVal) (h : k ≠ key) :
    dictGet (dictSet d key v) k = dictGet d k := by
  have hkk : (key == k) = false := by
    simp only [beq_eq_false_iff_ne]
    exact fun e => h e.symm
  induction d with
  | nil => simp [dictGet, dictSet, hkk]
  | cons p ps ih =>
    by_cases hp : p.1 = key
    · simp [dictGet, dictSet, hp, hkk]
    · have hpb : (p.1 == key) = false := by simp [hp]
      simp only [dictSet, hpb, if_false, Bool.false_eq_true, dictGet]
      by_cases hpk : p.1 = k <;> simp [hpk, ih]

/-- C1 fails as stated on the code: `save_batch_to_file` deletes the final
file before renaming, so a failure injected right after the
`os.remove(final_filename)` step — between the temporary-file write and the
rename — leaves the final path holding nothing rather than the previously
persisted store. -/
theorem c1_counterexample :
    flushStateAt fsC1 batchC1 2 ∈ midFlushStates fsC1 batchC1 ∧
    (flushStateAt fsC1 batchC1 2).final ≠ fsC1.final := by
  constructor
  · unfold midFlushStates
    exact List.mem_cons_of_mem _ (List.mem_cons_self _ _)
  · rw [show (flushStateAt fsC1 batchC1 2).final = none from rfl]
    simp [fsC1]

/-- C1 amended: if a failure occurs between the temporary-file write and
the rename, the final path either still holds the previously persisted
store unchanged or — once the pre-rename remove has run — holds no file at
all; and at every step of the flush sequence, the final path holds either
the old complete store, nothing, or the new complete store, so no reader
of the final path ever observes a truncated or partially-written store. -/
theorem c1_flush_final_path_never_torn (fs : FS) (batch : List JVal) :
    (∀ s ∈ midFlushStates fs batch, s.final = fs.final ∨ s.final = none) ∧
    (∀ s ∈ saveBatchTrace fs batch,
      s.final = fs.final ∨ s.final = none ∨
        s.final = some (.valid (load_existing_data fs ++ batch))) := by
  constructor
  · intro s hs
    unfold midFlushStates at hs
    rcases List.mem_cons.mp hs with h | h
    · subst h; left; rfl
    · rcases List.mem_cons.mp h with h2 | h2
      · subst h2; right; rfl
      · exact absurd h2 (List.not_mem_nil _)
  · intro s hs
    unfold saveBatchTrace at hs
    rcases List.mem_cons.mp hs with h | h
    · subst h; left; rfl
    · rcases List.mem_cons.mp h with h2 | h2
      · subst h2; left; rfl
      · rcases List.mem_cons.mp h2 with h3 | h3
        · subst h3; right; left; rfl
        · rcases List.mem_cons.mp h3 with h4 | h4
          · subst h4; right; right; rfl
          · exact absurd h4 (List.not_mem_nil _)

/-- Witness for the amended C1 at a concrete store and batch. -/
theorem c1_flush_final_path_never_torn_witness :
    (flushStateAt fsC1 batchC1 2).final = fsC1.final ∨
    (flushStateAt fsC1 batchC1 2).final = none :=
  (c1_flush_final_path_never_torn fsC1 batchC1).1 _
    (by unfold midFlushStates
        exact List.mem_cons_of_mem _ (List.mem_cons_self _ _))

/-- C2 fails as stated on the code: `search_page_worker` re-submits
`links.next` unconditionally, so even a successfully parsed page whose
next link is the empty terminal sentinel has the sentinel put back on the
page queue. -/
theorem c2_counterexample :
    (new_search_page_response bodyC2).isSome = true ∧
    (new_search_page_response bodyC2).map (fun r => r.links.next)
      = some (.str "") ∧
    (search_page_worker_step (some bodyC2)).pagePuts ≠ [] := by
  refine ⟨rfl, rfl, ?_⟩
  rw [show (search_page_worker_step (some bodyC2)).pagePuts
      = [JVal.str ""] from rfl]
  simp

/-- C2 amended: on every successfully fetched and parsed page whose item
iteration completes, the worker emits one detail request per discovered
item and then always re-submits `links.next` to its own queue — the empty
terminal sentinel included.  (The chain still terminates, but only because
fetching the re-submitted empty link later fails and is dropped.) -/
theorem c2_page_worker_always_resubmits_next (body : JVal)
    (resp : SearchPageResponse)
    (hp : new_search_page_response body = some resp)
    (hok : (get_car_data_emits resp.data).2 = true) :
    (search_page_worker_step (some body)).detailPuts.length
      = resp.data.length ∧
    (search_page_worker_step (some body)).pagePuts = [resp.links.next] := by
  simp only [search_page_worker_step]
  rw [hp]
  refine ⟨?_, ?_⟩ <;> simp only [hok, if_true]
  exact get_car_data_emits_length _ hok

/-- Witness for the amended C2 on a one-listing page with a non-empty next
link. -/
theorem c2_page_worker_always_resubmits_next_witness :
    (search_page_worker_step (some bodyC2w)).detailPuts.length = 1 ∧
    (search_page_worker_step (some bodyC2w)).pagePuts = [.str "page2"] :=
  c2_page_worker_always_resubmits_next bodyC2w respC2w rfl rfl

/-- C3: in `process_batch` over a non-empty batch, the in-memory batch is
cleared exactly when the flush ran to completion (`save_batch_to_file`
returned `True`); on any flush failure the batch contents are retained
unchanged for a later attempt. -/
theorem c3_batch_cleared_iff_flush_succeeds (fs : FS) (batch : List JVal)
    (k : Nat) (hne : batch ≠ []) :
    ((process_batch fs batch k).2.1 = [] ↔ 3 ≤ k) ∧
    (¬ 3 ≤ k → (process_batch fs batch k).2.1 = batch) := by
  have hemp : batch.isEmpty = false := by
    cases batch with
    | nil => exact absurd rfl hne
    | cons x xs => rfl
  by_cases hk : 3 ≤ k
  · simp [process_batch, save_batch_to_file, hemp, hk]
  · simp [process_batch, save_batch_to_file, hemp, hk, hne]

/-- Witness for C3: a failed flush (no step completed) retains the batch. -/
theorem c3_batch_cleared_iff_flush_succeeds_witness :
    (process_batch fsC1 [JVal.str "r"] 0).2.1 = [JVal.str "r"] :=
  (c3_batch_cleared_iff_flush_succeeds fsC1 [JVal.str "r"] 0 (by simp)).2
    (by decide)

/-- C4: a flush reads the current store — a missing final file and a final
file that fails to parse both read as the empty store — and a completed
flush rewrites the final path with the whole readable store followed by
the batch. -/
theorem c4_flush_rewrites_store_with_batch_appended (fs : FS)
    (batch : List JVal) :
    (fs.final = none → load_existing_data fs = []) ∧
    (∀ s, fs.final = some (.corrupt s) → load_existing_data fs = []) ∧
    (save_batch_to_file fs batch 3).1.final
      = some (.valid (load_existing_data fs ++ batch)) := by
  refine ⟨?_, ?_, rfl⟩
  · intro h; simp [load_existing_data, h]
  · intro s h; simp [load_existing_data, h]

/-- Witness for C4: a missing store and a corrupt store read as empty, and
a completed flush on `fsC1` leaves old-then-new contents. -/
theorem c4_flush_rewrites_store_with_batch_appended_witness :
    load_existing_data ⟨none, none⟩ = [] ∧
    load_existing_data ⟨none, some (.corrupt "x")⟩ = [] ∧
    (save_batch_to_file fsC1 batchC1 3).1.final
      = some (.valid [JVal.str "old", JVal.str "new"]) := by
  refine ⟨(c4_flush_rewrites_store_with_batch_appended ⟨none, none⟩ []).1 rfl,
    (c4_flush_rewrites_store_with_batch_appended
      ⟨none, some (.corrupt "x")⟩ []).2.1 "x" rfl, ?_⟩
  exact (c4_flush_rewrites_store_with_batch_appended fsC1 batchC1).2.2

/-- C5: in the persister loop, whenever an arriving record makes the batch
reach or exceed the configured size threshold, the flush runs within the
same iteration — before the next `get` can accept a further record —
regardless of elapsed time, and it covers the whole batch including the
new record. -/
theorem c5_size_trigger_flushes_before_next_accept (cfg : PersisterConfig)
    (fs : FS) (st : PersisterState) (rec : JVal) (now k : Nat)
    (h : cfg.batchSize ≤ st.batch.length + 1) :
    (save_car_data_worker_arrival cfg fs st rec now k).2.2 = true ∧
    (save_car_data_worker_arrival cfg fs st rec now k).1
      = (save_batch_to_file fs (st.batch ++ [rec]) k).1 := by
  have htrig : cfg.batchSize ≤ (st.batch ++ [rec]).length := by simpa using h
  unfold save_car_data_worker_arrival process_batch
  rw [if_pos (Or.inl htrig), if_neg (by simp)]
  exact ⟨rfl, rfl⟩

/-- Witness for C5: with threshold 1, a single arriving record triggers the
flush in the same iteration. -/
theorem c5_size_trigger_flushes_before_next_accept_witness :
    (save_car_data_worker_arrival ⟨1, 30⟩ ⟨none, none⟩ ⟨[], 0⟩
      (JVal.str "r") 0 3).2.2 = true :=
  (c5_size_trigger_flushes_before_next_accept ⟨1, 30⟩ ⟨none, none⟩ ⟨[], 0⟩
    (JVal.str "r") 0 3 (by decide)).1

/-- C6: on a result-queue wait timeout the persister attempts a flush iff
the current batch is non-empty; with an empty batch `save_batch_to_file`
is never invoked (so no store file is read or written) and the filesystem
is untouched. -/
theorem c6_timeout_flush_iff_batch_nonempty (fs : FS) (st : PersisterState)
    (now k : Nat) :
    ((save_car_data_worker_timeout fs st now k).2.2 = true ↔ st.batch ≠ []) ∧
    (st.batch = [] → (save_car_data_worker_timeout fs st now k).1 = fs) := by
  unfold save_car_data_worker_timeout process_batch
  cases hb : st.batch with
  | nil => simp
  | cons x xs => simp

/-- Witness for C6: a timeout with a one-record batch attempts the flush. -/
theorem c6_timeout_flush_iff_batch_nonempty_witness :
    (save_car_data_worker_timeout ⟨none, none⟩ ⟨[JVal.str "r"], 0⟩ 5 3).2.2
      = true :=
  (c6_timeout_flush_iff_batch_nonempty ⟨none, none⟩
    ⟨[JVal.str "r"], 0⟩ 5 3).1.mpr (by simp)

/-- C7: every consumed unit of work on the page-request and detail-request
queues is marked complete exactly once per iteration, on success and on
any fetch or parse failure alike (`task_done` sits after the try/except in
both worker loops). -/
theorem c7_task_done_exactly_once :
    (∀ fetch : Option JVal, (search_page_worker_step fetch).taskDone = 1) ∧
    (∀ (attrs : JVal) (fetch : Option JVal),
      (car_data_worker_step attrs fetch).taskDone = 1) := by
  constructor
  · intro fetch
    unfold search_page_worker_step
    split
    · rfl
    · split
      · rfl
      · dsimp only
        split <;> rfl
  · intro attrs fetch
    unfold car_data_worker_step
    split
    · rfl
    · split
      · rfl
      · split <;> rfl

/-- C8: for every successful detail fetch, the emitted record nests the
seed attributes unaltered under `car_attrs` and the fetched payload
(`data[0]`) unaltered under `car_specs`; the two always coexist, since
they live under separate keys the fetch can never redefine a seed key. -/
theorem c8_record_combines_seed_and_payload (attrs body : JVal)
    (d : List (String × JVal)) (x : JVal) (rest : List JVal)
    (hobj : asObj body = some d)
    (hdata : dictGet d "data" = some (.arr (x :: rest))) :
    ∃ recd : List (String × JVal),
      (car_data_worker_step attrs (some body)).emits = [JVal.obj recd] ∧
      dictGet recd "car_attrs" = some attrs ∧
      dictGet recd "car_specs" = some x := by
  refine ⟨[("car_attrs", attrs), ("car_specs", x)], ?_, rfl, rfl⟩
  simp only [car_data_worker_step, hobj, Option.some_bind, hdata]
  rfl

/-- Witness for C8 at a concrete seed-attribute mapping and payload. -/
theorem c8_record_combines_seed_and_payload_witness :
    ∃ recd : List (String × JVal),
      (car_data_worker_step attrsC8 (some bodyC8)).emits = [JVal.obj recd] ∧
      dictGet recd "car_attrs" = some attrsC8 ∧
      dictGet recd "car_specs" = some xC8 :=
  c8_record_combines_seed_and_payload attrsC8 bodyC8 dC8 xC8 [] rfl rfl

/-- C9 fails as stated on the code: `flatten_car_data` mutates its input
record in place — after a successful call the record's `car_attrs` mapping
has `seller_types` replaced by the comma-joined string and `image`
replaced by `image_*` keys — so the record is not left unchanged. -/
theorem c9_counterexample :
    flatten_car_data cdC9 = some (outC9, postC9) ∧ postC9 ≠ cdC9 := by
  refine ⟨rfl, ?_⟩
  simp [postC9, cdC9, cdC9l, attrsC9post]

/-- C9 amended: the flattened output is a new dict, but the input record is
not left unchanged: a successful `flatten_car_data` call mutates exactly
the record's `car_attrs` entry (the seller-types join and the image
flattening happen in place on the seed mapping), while the `car_specs`
detail payload and every other key of the record read back unchanged. -/
theorem c9_flatten_mutates_only_car_attrs (cd out post : JVal)
    (cdl : List (String × JVal)) (hcd : asObj cd = some cdl)
    (h : flatten_car_data cd = some (out, post)) :
    ∀ k, k ≠ "car_attrs" →
      (asObj post).bind (fun pd => dictGet pd k) = dictGet cdl k := by
  intro k hk
  unfold flatten_car_data at h
  rw [hcd] at h
  simp only [Option.bind_eq_bind, Option.some_bind, Option.bind_eq_some,
    Option.pure_def, Option.some.injEq, Prod.mk.injEq] at h
  obtain ⟨attrsJ, h1, attrs, h2, specsJ, h3, specs, h4, stJ, h5, stL, h6,
    stStrs, h7, imgJ, h8, img, h9, newSpec, h10, hout, hpost⟩ := h
  subst hpost
  simp only [asObj, Option.some_bind]
  exact dictGet_dictSet_ne _ _ _ _ hk

/-- Witness for the amended C9 on a concrete record: the detail payload
reads back unchanged through the mutated record. -/
theorem c9_flatten_mutates_only_car_attrs_witness :
    (asObj postC9).bind (fun pd => dictGet pd "car_specs")
      = dictGet cdC9l "car_specs" :=
  c9_flatten_mutates_only_car_attrs cdC9 outC9 postC9 cdC9l rfl rfl
    "car_specs" (by simp)

/-- C10: only the first element of a successful detail response's `data`
array becomes the emitted payload; an empty `data` array raises
`IndexError`, the item is logged and dropped with nothing emitted, and the
unit of work is still marked complete. -/
theorem c10_first_data_element_or_dropped (attrs body : JVal)
    (d : List (String × JVal)) (hobj : asObj body = some d) :
    (dictGet d "data" = some (.arr []) →
      car_data_worker_step attrs (some body) = ⟨[], 1⟩) ∧
    (∀ x rest, dictGet d "data" = some (.arr (x :: rest)) →
      car_data_worker_step attrs (some body)
        = ⟨[JVal.obj [("car_attrs", attrs), ("car_specs", x)]], 1⟩) := by
  constructor
  · intro h
    simp only [car_data_worker_step, hobj, Option.some_bind, h]
    rfl
  · intro x rest h
    simp only [car_data_worker_step, hobj, Option.some_bind, h]
    rfl

/-- Witness for C10: an empty `data` array drops the item while a
two-element-capable one emits only the head payload. -/
theorem c10_first_data_element_or_dropped_witness :
    car_data_worker_step attrsC8 (some bodyC10) = ⟨[], 1⟩ ∧
    car_data_worker_step attrsC8 (some bodyC8)
      = ⟨[JVal.obj [("car_attrs", attrsC8), ("car_specs", xC8)]], 1⟩ :=
  ⟨(c10_first_data_element_or_dropped attrsC8 bodyC10 [("data", .arr [])]
      rfl).1 rfl,
   (c10_first_data_element_or_dropped attrsC8 bodyC8 dC8 rfl).2 xC8 [] rfl⟩
